import Mathlib

/-!
Shallow embedding of `src/src/arch/mips64/syscall.rs`: the MIPS64 raw
syscall backend (`syscall0` .. `syscall6`).

Each Rust function is one `asm!("syscall", ...)` block followed by
`if err == 0 { ret } else { ret.wrapping_neg() }`.  We embed:

* machine words as `Nat` (64-bit wrapping made explicit with `% 2^64`);
* the hardware register file as a function from register number to word;
* each `asm!` operand list as data (`OpSpec`), transcribed verbatim from
  the source: `in("$r") v`, `inlateout("$r") v => x`, `lateout("$r") x`,
  where the captured output is `ret` (from `$2`), `err` (from `$7`) or
  discarded (`_`);
* the trap as an arbitrary kernel function that may overwrite exactly the
  registers the operand list declares as outputs and must preserve the
  rest;
* the shared tail `if err == 0 { ret } else { ret.wrapping_neg() }` as
  `encode`.
-/

namespace Mips64

/-- A 64-bit machine word, represented as a natural number; wrapping
arithmetic is made explicit where the source uses it. -/
abbrev Word := Nat

/-- The syscall identifier (`Sysno` in the source) is an opaque machine
word: the source only ever does `n as usize`. -/
abbrev Sysno := Word

/-- The register file: register number (0..31) to current word value. -/
abbrev RegState := Nat → Word

/-- `2^64`, the modulus of 64-bit wrapping arithmetic. -/
def wordMod : Nat := 2 ^ 64

/-- `usize::wrapping_neg`: two's-complement negation modulo `2^64`. -/
def wneg64 (x : Word) : Word := (wordMod - x % wordMod) % wordMod

/-- Write one register of the register file. -/
def rset (s : RegState) (r : Nat) (v : Word) : RegState :=
  fun x => if x = r then v else s x

/-- Where an `asm!` input operand's value comes from: the syscall number
`n` or the function parameter `argN`. -/
inductive Src where
  | sysno : Src
  | arg : Nat → Src
deriving DecidableEq, Repr

/-- What an `asm!` output operand is captured into: the local `ret`
(register `$2`), the local `err` (register `$7`), or discarded (`_`). -/
inductive Out where
  | ret : Out
  | err : Out
deriving DecidableEq, Repr

/-- One operand of an `asm!` block, transcribed from the source:
`inOp r v` is `in("$r") v`; `inlateout r v o` is `inlateout("$r") v => o`
(with `o = none` for `=> _`); `lateout r o` is `lateout("$r") o`. -/
inductive OpSpec where
  | inOp : Nat → Src → OpSpec
  | inlateout : Nat → Src → Option Out → OpSpec
  | lateout : Nat → Option Out → OpSpec
deriving DecidableEq, Repr

/-- The hardware register an operand binds. -/
def regOf : OpSpec → Nat
  | .inOp r _ => r
  | .inlateout r _ _ => r
  | .lateout r _ => r

/-- The input payload of an operand, when it has one. -/
def srcOf : OpSpec → Option Src
  | .inOp _ v => some v
  | .inlateout _ v _ => some v
  | .lateout _ _ => none

/-- What the operand captures after the trap, when anything. -/
def capturedAs : OpSpec → Option Out
  | .inOp _ _ => none
  | .inlateout _ _ o => o
  | .lateout _ o => o

/-- Whether the operand declares its register as writable by the trap
(`lateout` or `inlateout`, captured or discarded). -/
def isOutputOp : OpSpec → Bool
  | .inOp _ _ => false
  | .inlateout _ _ _ => true
  | .lateout _ _ => true

/-- Operand list of `syscall0` (source lines 49-65). -/
def ops0 : List OpSpec :=
  [.inlateout 2 .sysno (some .ret),
   .lateout 7 (some .err),
   .lateout 8 none, .lateout 9 none, .lateout 10 none, .lateout 11 none,
   .lateout 12 none, .lateout 13 none, .lateout 14 none, .lateout 15 none,
   .lateout 24 none, .lateout 25 none]

/-- Operand list of `syscall1` (source lines 83-100). -/
def ops1 : List OpSpec :=
  [.inlateout 2 .sysno (some .ret),
   .lateout 7 (some .err),
   .inOp 4 (.arg 1),
   .lateout 8 none, .lateout 9 none, .lateout 10 none, .lateout 11 none,
   .lateout 12 none, .lateout 13 none, .lateout 14 none, .lateout 15 none,
   .lateout 24 none, .lateout 25 none]

/-- Operand list of `syscall2` (source lines 118-136). -/
def ops2 : List OpSpec :=
  [.inlateout 2 .sysno (some .ret),
   .lateout 7 (some .err),
   .inOp 4 (.arg 1), .inOp 5 (.arg 2),
   .lateout 8 none, .lateout 9 none, .lateout 10 none, .lateout 11 none,
   .lateout 12 none, .lateout 13 none, .lateout 14 none, .lateout 15 none,
   .lateout 24 none, .lateout 25 none]

/-- Operand list of `syscall3` (source lines 159-178). -/
def ops3 : List OpSpec :=
  [.inlateout 2 .sysno (some .ret),
   .lateout 7 (some .err),
   .inOp 4 (.arg 1), .inOp 5 (.arg 2), .inOp 6 (.arg 3),
   .lateout 8 none, .lateout 9 none, .lateout 10 none, .lateout 11 none,
   .lateout 12 none, .lateout 13 none, .lateout 14 none, .lateout 15 none,
   .lateout 24 none, .lateout 25 none]

/-- Operand list of `syscall4` (source lines 202-222): `$7` becomes an
`inlateout` carrying `arg4` in and `err` out. -/
def ops4 : List OpSpec :=
  [.inlateout 2 .sysno (some .ret),
   .inOp 4 (.arg 1), .inOp 5 (.arg 2), .inOp 6 (.arg 3),
   .inlateout 7 (.arg 4) (some .err),
   .lateout 8 none, .lateout 9 none, .lateout 10 none, .lateout 11 none,
   .lateout 12 none, .lateout 13 none, .lateout 14 none, .lateout 15 none,
   .lateout 24 none, .lateout 25 none]

/-- Operand list of `syscall5` (source lines 247-267): `$8` carries
`arg5` in and is discarded (`=> _`). -/
def ops5 : List OpSpec :=
  [.inlateout 2 .sysno (some .ret),
   .inOp 4 (.arg 1), .inOp 5 (.arg 2), .inOp 6 (.arg 3),
   .inlateout 7 (.arg 4) (some .err),
   .inlateout 8 (.arg 5) none,
   .lateout 9 none, .lateout 10 none, .lateout 11 none,
   .lateout 12 none, .lateout 13 none, .lateout 14 none, .lateout 15 none,
   .lateout 24 none, .lateout 25 none]

/-- Operand list of `syscall6` (source lines 293-313): `$8` and `$9`
carry `arg5`, `arg6` in and are discarded (`=> _`). -/
def ops6 : List OpSpec :=
  [.inlateout 2 .sysno (some .ret),
   .inOp 4 (.arg 1), .inOp 5 (.arg 2), .inOp 6 (.arg 3),
   .inlateout 7 (.arg 4) (some .err),
   .inlateout 8 (.arg 5) none,
   .inlateout 9 (.arg 6) none,
   .lateout 10 none, .lateout 11 none,
   .lateout 12 none, .lateout 13 none, .lateout 14 none, .lateout 15 none,
   .lateout 24 none, .lateout 25 none]

/-- The operand list of the arity-`k` entry point. -/
def asmOps (k : Fin 7) : List OpSpec :=
  match k.val with
  | 0 => ops0
  | 1 => ops1
  | 2 => ops2
  | 3 => ops3
  | 4 => ops4
  | 5 => ops5
  | _ => ops6

/-- The seven entry points of the backend, with the number of argument
words each takes beyond the syscall identifier (from the source function
signatures). -/
def entryPoints : List (String × Nat) :=
  [("syscall0", 0), ("syscall1", 1), ("syscall2", 2), ("syscall3", 3),
   ("syscall4", 4), ("syscall5", 5), ("syscall6", 6)]

/-- The value an input payload denotes, given the identifier and the
argument words. -/
def srcVal (n : Sysno) (args : Nat → Word) : Src → Word
  | .sysno => n
  | .arg i => args i

/-- Load one operand's input (if any) into the register file. -/
def applyOne (n : Sysno) (args : Nat → Word) (s : RegState) (op : OpSpec) :
    RegState :=
  match srcOf op with
  | some v => rset s (regOf op) (srcVal n args v)
  | none => s

/-- Load all declared inputs of an operand list into the register file:
the pre-trap register state. -/
def applyInputs (ops : List OpSpec) (n : Sysno) (args : Nat → Word)
    (s : RegState) : RegState :=
  ops.foldl (applyOne n args) s

/-- The sequence of input payloads an operand list declares, in order. -/
def inputSrcs (ops : List OpSpec) : List Src := ops.filterMap srcOf

/-- The input payload bound to register `r`, if any. -/
def inputSrcAt (ops : List OpSpec) (r : Nat) : Option Src :=
  ops.findSome? fun op => if regOf op = r then srcOf op else none

/-- Whether register `r` is declared writable by the trap. -/
def isOutput (ops : List OpSpec) (r : Nat) : Bool :=
  ops.any fun op => isOutputOp op && (regOf op == r)

/-- Whether register `r` is declared writable with its post-trap value
discarded (`=> _` or `lateout ... _`): explicitly destroyed. -/
def isDiscarded (ops : List OpSpec) (r : Nat) : Bool :=
  ops.any fun op => isOutputOp op && (capturedAs op).isNone && (regOf op == r)

/-- The register whose post-trap value is captured into the given local
(`ret` or `err`). -/
def capturedReg (ops : List OpSpec) (o : Out) : Nat :=
  (ops.findSome? fun op =>
    if capturedAs op = some o then some (regOf op) else none).getD 0

/-- A kernel behaviour at the trap instruction: from the pre-trap
register state, the value it leaves in each register it is allowed to
write. -/
abbrev Kernel := RegState → Nat → Word

/-- The trap: the kernel overwrites exactly the registers the operand
list declares as outputs; every other register is preserved. -/
def postTrap (ops : List OpSpec) (K : Kernel) (pre : RegState) : RegState :=
  fun r => if isOutput ops r then K pre r else pre r

/-- The shared tail of every entry point:
`if err == 0 { ret } else { ret.wrapping_neg() }`. -/
def encode (ret err : Word) : Word := if err = 0 then ret else wneg64 ret

/-- Read the captured outputs from the post-trap state and encode the
result. -/
def readout (ops : List OpSpec) (post : RegState) : Word :=
  encode (post (capturedReg ops Out.ret)) (post (capturedReg ops Out.err))

/-- One whole entry-point body: load inputs, trap, read `ret`/`err`,
encode. -/
def runSyscall (ops : List OpSpec) (n : Sysno) (args : Nat → Word)
    (K : Kernel) (s : RegState) : Word :=
  readout ops (postTrap ops K (applyInputs ops n args s))

/-- The arity-`k` entry point, uniformly over `k`. -/
def syscallAny (k : Fin 7) (n : Sysno) (args : Nat → Word) (K : Kernel)
    (s : RegState) : Word :=
  runSyscall (asmOps k) n args K s

/-- Pre-trap register state of the arity-`k` entry point. -/
def preAny (k : Fin 7) (n : Sysno) (args : Nat → Word) (s : RegState) :
    RegState :=
  applyInputs (asmOps k) n args s

/-- Post-trap register state of the arity-`k` entry point. -/
def postAny (k : Fin 7) (n : Sysno) (args : Nat → Word) (K : Kernel)
    (s : RegState) : RegState :=
  postTrap (asmOps k) K (preAny k n args s)

/-- Pack up to six argument words into an argument assignment (slots are
1-based, matching `arg1` .. `arg6` in the source). -/
def args6 (a1 a2 a3 a4 a5 a6 : Word) : Nat → Word
  | 1 => a1
  | 2 => a2
  | 3 => a3
  | 4 => a4
  | 5 => a5
  | 6 => a6
  | _ => 0

/-- `pub unsafe fn syscall0(n: Sysno) -> usize`. -/
def syscall0 (n : Sysno) (K : Kernel) (s : RegState) : Word :=
  runSyscall ops0 n (args6 0 0 0 0 0 0) K s

/-- `pub unsafe fn syscall1(n: Sysno, arg1: usize) -> usize`. -/
def syscall1 (n : Sysno) (a1 : Word) (K : Kernel) (s : RegState) : Word :=
  runSyscall ops1 n (args6 a1 0 0 0 0 0) K s

/-- `pub unsafe fn syscall2(n: Sysno, arg1: usize, arg2: usize) -> usize`. -/
def syscall2 (n : Sysno) (a1 a2 : Word) (K : Kernel) (s : RegState) : Word :=
  runSyscall ops2 n (args6 a1 a2 0 0 0 0) K s

/-- `pub unsafe fn syscall3(...)` with three argument words. -/
def syscall3 (n : Sysno) (a1 a2 a3 : Word) (K : Kernel) (s : RegState) :
    Word :=
  runSyscall ops3 n (args6 a1 a2 a3 0 0 0) K s

/-- `pub unsafe fn syscall4(...)` with four argument words. -/
def syscall4 (n : Sysno) (a1 a2 a3 a4 : Word) (K : Kernel) (s : RegState) :
    Word :=
  runSyscall ops4 n (args6 a1 a2 a3 a4 0 0) K s

/-- `pub unsafe fn syscall5(...)` with five argument words. -/
def syscall5 (n : Sysno) (a1 a2 a3 a4 a5 : Word) (K : Kernel)
    (s : RegState) : Word :=
  runSyscall ops5 n (args6 a1 a2 a3 a4 a5 0) K s

/-- `pub unsafe fn syscall6(...)` with six argument words. -/
def syscall6 (n : Sysno) (a1 a2 a3 a4 a5 a6 : Word) (K : Kernel)
    (s : RegState) : Word :=
  runSyscall ops6 n (args6 a1 a2 a3 a4 a5 a6) K s

/-- A kernel whose response does not depend on the register state: it
leaves `r` in the result register `$2`, `e` in the error register `$7`,
and zero in the clobbered temporaries. -/
def konst (r e : Word) : Kernel :=
  fun _ reg => if reg = 2 then r else if reg = 7 then e else 0

/-- A kernel that echoes the pre-trap content of register `src` back in
the result register `$2` and reports success (`$7` clear). -/
def echoKernel (src : Nat) : Kernel :=
  fun pre reg => if reg = 2 then pre src else 0

/-- The temporary registers the architecture comment lists as always
clobbered: `$8`-`$15`, `$24`, `$25` (source lines 30 and 53-63). -/
def tempRegs : List Nat := [8, 9, 10, 11, 12, 13, 14, 15, 24, 25]

lemma wneg64_zero : wneg64 0 = 0 := by
  simp [wneg64, wordMod]

lemma encode_zero_mag (e : Word) : encode 0 e = 0 := by
  by_cases he : e = 0 <;> simp [encode, he, wneg64_zero]

lemma wneg64_minNeg : wneg64 (2 ^ 63) = 2 ^ 63 := by
  norm_num [wneg64, wordMod]

lemma wneg64_maxWord : wneg64 (2 ^ 64 - 1) = 1 := by
  norm_num [wneg64, wordMod]

lemma wneg64_lt (m : Word) : wneg64 m < 2 ^ 64 :=
  Nat.mod_lt _ (by norm_num [wordMod])

/-- Claim C1: for every arity 0 through 6 and every kernel behaviour, the
entry point returns the raw word the kernel left in the identifier
register `$2` unchanged when the error register `$7` is clear, and its
two's-complement negation modulo `2^64` when `$7` is nonzero; these are
the only two outcomes. -/
theorem c1_error_encoding_all_arities (k : Fin 7) (n : Sysno)
    (args : Nat → Word) (K : Kernel) (s : RegState) :
    syscallAny k n args K s =
      if K (preAny k n args s) 7 = 0 then K (preAny k n args s) 2
      else wneg64 (K (preAny k n args s) 2) := by
  fin_cases k <;> rfl

/-- Claim C3: for every arity, the identifier register `$2` is both input
and output: the pre-trap state holds the syscall identifier `n` there,
and the returned word is computed (via `encode`) from the post-trap
values of `$2` and of the error register `$7`. -/
theorem c3_identifier_register_in_out (k : Fin 7) (n : Sysno)
    (args : Nat → Word) (K : Kernel) (s : RegState) :
    preAny k n args s 2 = n ∧
    syscallAny k n args K s =
      encode (postAny k n args K s 2) (postAny k n args K s 7) := by
  fin_cases k <;> exact ⟨rfl, rfl⟩

/-- Claim C9: for every arity, the success branch is taken exactly when
the error register holds 0: a kernel response with any nonzero word `e`
in `$7` — not only 1 — yields the negated result, and `e = 0` yields the
raw result. -/
theorem c9_error_flag_zero_test (k : Fin 7) (n : Sysno)
    (args : Nat → Word) (s : RegState) (r e : Word) :
    syscallAny k n args (konst r e) s = if e = 0 then r else wneg64 r := by
  fin_cases k <;> rfl

/-- Claim C10: for every arity, a kernel-reported failure with error
magnitude 0 returns 0 (the wrapping negation of zero), the same word a
successful call with raw result 0 returns: the two are indistinguishable
from the returned word alone. -/
theorem c10_zero_magnitude_failure (k : Fin 7) (n : Sysno)
    (args : Nat → Word) (s : RegState) (e : Word) :
    syscallAny k n args (konst 0 e) s = 0 ∧
    syscallAny k n args (konst 0 0) s = 0 := by
  refine ⟨?_, ?_⟩
  · fin_cases k <;> exact encode_zero_mag e
  · fin_cases k <;> rfl

/-- Claim C8: the failure-branch negation is total (always a 64-bit
word), the boundary magnitudes `2^63` and `2^64 - 1` negate without
overflow (to `2^63` and `1`), and the maximum positive raw result
`2^63 - 1` passes through the success branch unchanged, for every
arity. -/
theorem c8_negation_boundary (k : Fin 7) (n : Sysno) (args : Nat → Word)
    (s : RegState) :
    syscallAny k n args (konst (2 ^ 63 - 1) 0) s = 2 ^ 63 - 1 ∧
    syscallAny k n args (konst (2 ^ 63) 1) s = 2 ^ 63 ∧
    syscallAny k n args (konst (2 ^ 64 - 1) 1) s = 1 ∧
    ∀ m : Word, wneg64 m < 2 ^ 64 := by
  refine ⟨?_, ?_, ?_, wneg64_lt⟩
  · fin_cases k <;> rfl
  · fin_cases k <;> (show encode (2 ^ 63) 1 = 2 ^ 63; exact wneg64_minNeg)
  · fin_cases k <;> (show encode (2 ^ 64 - 1) 1 = 1; exact wneg64_maxWord)

/-- Claim C2 as stated is false: the backend has seven entry points
(`syscall0` .. `syscall6`), not six. -/
theorem c2_entry_point_count_counterexample : ¬ entryPoints.length = 6 := by
  decide

/-- Claim C2 (amended): the backend consists of exactly seven entry
points, distinguished only by argument arity ranging over 0 through 6;
the arity-`k` operand list takes as inputs exactly the syscall
identifier followed by argument words 1 through `k` (no variadic
form). -/
theorem c2_entry_point_arities :
    entryPoints.length = 7 ∧
    entryPoints.map Prod.snd = [0, 1, 2, 3, 4, 5, 6] ∧
    ∀ k : Fin 7,
      inputSrcs (asmOps k) =
        Src.sysno :: (List.range k.val).map (fun i => Src.arg (i + 1)) := by
  decide

/-- Claim C4 as stated is false: it is not the case that every arity
leaves register `$7` free of input payload — at arities 4, 5 and 6 the
operand `inlateout("$7") arg4 => err` supplies argument 4 in `$7`. -/
theorem c4_error_register_counterexample :
    ¬ ∀ k : Fin 7, inputSrcAt (asmOps k) 7 = none := by
  decide

/-- Claim C4 (amended): for every arity the error indicator is captured
from register `$7`; for arities 0 through 3 `$7` carries no input
(output-only), while for arities 4 through 6 it additionally carries
argument 4 into the trap (dual-purpose argument/error slot). -/
theorem c4_error_register_roles :
    ∀ k : Fin 7,
      capturedReg (asmOps k) Out.err = 7 ∧
      inputSrcAt (asmOps k) 7 =
        (if 4 ≤ k.val then some (Src.arg 4) else none) := by
  decide

/-- Claim C5: on every arity, each temporary register the ABI lets the
kernel alter (`$8`-`$15`, `$24`, `$25`) is declared as a trap output
(captured or destroyed), and the two argument-5/6 temporaries `$8` and
`$9` are declared destroyed (their post-trap value discarded) at every
arity, including arities below 5. -/
theorem c5_temporaries_accounted :
    ∀ k : Fin 7,
      (tempRegs.all fun r => isOutput (asmOps k) r) = true ∧
      isDiscarded (asmOps k) 8 = true ∧
      isDiscarded (asmOps k) 9 = true := by
  decide

/-- Claim C6: at arity 6 the six argument words are loaded unmodified
into the pre-trap registers `$4`, `$5`, `$6`, `$7`, `$8`, `$9`, and a
kernel that echoes the pre-trap content of any of those six registers
back as the result (with the error flag clear) makes `syscall6` return
exactly that argument's value. -/
theorem c6_arity6_args_reach_kernel (n : Sysno) (a1 a2 a3 a4 a5 a6 : Word)
    (s : RegState) :
    (preAny 6 n (args6 a1 a2 a3 a4 a5 a6) s 4 = a1 ∧
     preAny 6 n (args6 a1 a2 a3 a4 a5 a6) s 5 = a2 ∧
     preAny 6 n (args6 a1 a2 a3 a4 a5 a6) s 6 = a3 ∧
     preAny 6 n (args6 a1 a2 a3 a4 a5 a6) s 7 = a4 ∧
     preAny 6 n (args6 a1 a2 a3 a4 a5 a6) s 8 = a5 ∧
     preAny 6 n (args6 a1 a2 a3 a4 a5 a6) s 9 = a6) ∧
    (syscall6 n a1 a2 a3 a4 a5 a6 (echoKernel 4) s = a1 ∧
     syscall6 n a1 a2 a3 a4 a5 a6 (echoKernel 5) s = a2 ∧
     syscall6 n a1 a2 a3 a4 a5 a6 (echoKernel 6) s = a3 ∧
     syscall6 n a1 a2 a3 a4 a5 a6 (echoKernel 7) s = a4 ∧
     syscall6 n a1 a2 a3 a4 a5 a6 (echoKernel 8) s = a5 ∧
     syscall6 n a1 a2 a3 a4 a5 a6 (echoKernel 9) s = a6) :=
  ⟨⟨rfl, rfl, rfl, rfl, rfl, rfl⟩, rfl, rfl, rfl, rfl, rfl, rfl⟩

/-- Claim C7: for every arity `k` below 6, the encoded result depends
only on the syscall identifier, the first `k` argument words and the
kernel behaviour: changing argument slots beyond `k` cannot change the
result. -/
theorem c7_scratch_noninterference (k : Fin 7) (n : Sysno)
    (args args' : Nat → Word) (K : Kernel) (s : RegState)
    (hk : k.val < 6)
    (h : ∀ i, 1 ≤ i → i ≤ k.val → args i = args' i) :
    syscallAny k n args K s = syscallAny k n args' K s := by
  fin_cases k
  · rfl
  · show readout ops1 (postTrap ops1 K (rset (rset s 2 n) 4 (args 1))) =
        readout ops1 (postTrap ops1 K (rset (rset s 2 n) 4 (args' 1)))
    rw [h 1 (by decide) (by decide)]
  · show readout ops2 (postTrap ops2 K
          (rset (rset (rset s 2 n) 4 (args 1)) 5 (args 2))) =
        readout ops2 (postTrap ops2 K
          (rset (rset (rset s 2 n) 4 (args' 1)) 5 (args' 2)))
    rw [h 1 (by decide) (by decide), h 2 (by decide) (by decide)]
  · show readout ops3 (postTrap ops3 K
          (rset (rset (rset (rset s 2 n) 4 (args 1)) 5 (args 2)) 6
            (args 3))) =
        readout ops3 (postTrap ops3 K
          (rset (rset (rset (rset s 2 n) 4 (args' 1)) 5 (args' 2)) 6
            (args' 3)))
    rw [h 1 (by decide) (by decide), h 2 (by decide) (by decide),
      h 3 (by decide) (by decide)]
  · show readout ops4 (postTrap ops4 K
          (rset (rset (rset (rset (rset s 2 n) 4 (args 1)) 5 (args 2)) 6
            (args 3)) 7 (args 4))) =
        readout ops4 (postTrap ops4 K
          (rset (rset (rset (rset (rset s 2 n) 4 (args' 1)) 5 (args' 2)) 6
            (args' 3)) 7 (args' 4)))
    rw [h 1 (by decide) (by decide), h 2 (by decide) (by decide),
      h 3 (by decide) (by decide), h 4 (by decide) (by decide)]
  · show readout ops5 (postTrap ops5 K
          (rset (rset (rset (rset (rset (rset s 2 n) 4 (args 1)) 5
            (args 2)) 6 (args 3)) 7 (args 4)) 8 (args 5))) =
        readout ops5 (postTrap ops5 K
          (rset (rset (rset (rset (rset (rset s 2 n) 4 (args' 1)) 5
            (args' 2)) 6 (args' 3)) 7 (args' 4)) 8 (args' 5)))
    rw [h 1 (by decide) (by decide), h 2 (by decide) (by decide),
      h 3 (by decide) (by decide), h 4 (by decide) (by decide),
      h 5 (by decide) (by decide)]
  · exact absurd hk (by decide)

/-- Witness for C7 at arity 2: a sentinel in argument slot 3 has no
effect on the result. -/
theorem c7_scratch_noninterference_witness :
    syscallAny 2 39 (fun i => if i = 3 then 99 else 5) (konst 7 0)
      (fun _ => 0) =
    syscallAny 2 39 (fun _ => 5) (konst 7 0) (fun _ => 0) :=
  c7_scratch_noninterference 2 39 (fun i => if i = 3 then 99 else 5)
    (fun _ => 5) (konst 7 0) (fun _ => 0) (by decide)
    (fun i _ h2 => by
      have h2' : i ≤ 2 := h2
      have h3 : ¬ i = 3 := by omega
      simp [h3])

end Mips64
